import Mathlib

/-!
Verification development for the Meditation-Trend-Pulse publish pipeline.

The repository consists of a publish-orchestrator shell script (four
variants: `run_update.sh` and three unnamed variants) and a notebook that
exports derived CSV tables for the Streamlit dashboard.  This file gives a
shallow embedding of both and proves the spec's testable properties.

Shell-script embedding notes:
* Each variant runs under `set -euo pipefail`; a failing unguarded command
  aborts the script with that command's exit status.  We model a non-zero
  git exit status as `1` (the claims only distinguish zero from non-zero).
* The environment of one run (`Env`) carries everything the script observes:
  the prior content of the current month's log file, the updater's exit
  status and output lines, whether `find` fails, the set of files in `logs/`,
  whether the staged diff is empty, and whether `git commit` / `git push`
  fail.  The `Init` steps (venv activation, `cd`, `mkdir -p logs`) are
  assumed to succeed, and `git add` of the existing artifact paths succeeds.
* `grep -q` scans the whole monthly log file, i.e. the prior content plus
  the just-appended header and updater output; `containsMarker` mirrors
  this by substring search on every line.
-/

namespace TrendPulse

/-- One file in the `logs/` directory: its name and its age in whole days
(the `find -mtime +180` test compares the age in whole days with 180). -/
structure LogFile where
  name : String
  ageDays : Nat
deriving DecidableEq, Repr

/-- Everything a single orchestrator run observes from its environment. -/
structure Env where
  /-- `date '+%Y-%m-%d %H:%M:%S'` at the start of the run. -/
  runTimestamp : String
  /-- Content (lines) of the current month's log file before this run. -/
  priorLog : List String
  /-- Exit status of `python3 automation/update_all_datasets.py`. -/
  updaterExit : Nat
  /-- Combined stdout+stderr lines of the updater, appended to the log. -/
  updaterOutput : List String
  /-- Whether the `find ... -delete` cleanup command fails. -/
  findFails : Bool
  /-- Files currently in `logs/`. -/
  logFiles : List LogFile
  /-- Whether `git diff --cached --quiet` succeeds (staged diff empty). -/
  stagedDiffEmpty : Bool
  /-- Whether `git commit` fails. -/
  commitFails : Bool
  /-- Output lines of `git commit`, appended to the log. -/
  commitOutput : List String
  /-- Whether `git push origin main` fails. -/
  pushFails : Bool
  /-- Output lines of `git push`, appended to the log. -/
  pushOutput : List String
deriving DecidableEq, Repr

/-- Static configuration of one script variant: the staged artifact paths and
which optional commands the variant contains. -/
structure Config where
  /-- The paths passed to `git add`. -/
  artifacts : List String
  /-- Whether the variant echoes the checking message after the marker test. -/
  checkingMsg : Bool
  /-- Whether the variant has the `git diff --cached --quiet` compare step. -/
  hasCompare : Bool
  /-- Whether `git commit` and `git push` carry `|| true`. -/
  guardCommitPush : Bool
  /-- The message logged when the marker is absent. -/
  noUpdateMsg : String
deriving DecidableEq, Repr

/-- Result of one orchestrator run. -/
structure RunResult where
  exitCode : Nat
  /-- Content of the monthly log file after the run. -/
  log : List String
  /-- Paths added to the git index (empty when `git add` never ran). -/
  staged : List String
  commitAttempted : Bool
  commitCreated : Bool
  pushAttempted : Bool
  pushSucceeded : Bool
  /-- Files remaining in `logs/` after the run. -/
  logFiles : List LogFile
deriving DecidableEq, Repr

/-- The success marker the updater prints when it overwrote the global
summary, and that the orchestrator greps for. -/
def successMarker : String := "✅ Overwrote global_trend_summary.csv"

/-- Separator line of the run header. -/
def sepLine : String := "────────────────────────────────────────────"

/-- Status line of the compare-variants before `git add`. -/
def checkingLine : String := "📤 Checking if any dataset was updated..."

/-- Status line when the staged diff is empty. -/
def noChangesLine : String := "✅ Update script completed — no dataset changes detected."

/-- Status line appended after the push step. -/
def pushedLine : String := "🚀 Changes pushed to GitHub."

/-- No-update message of `run_update.sh`. -/
def noNewWeeklyLine : String := "📂 No new weekly data — skipping GitHub push."

/-- No-update message of the three unnamed variants. -/
def noNewGlobalLine : String := "📂 No new global dataset — skipping GitHub push."

/-- Whether `pat` occurs as a substring of `line` (what `grep` matches;
the marker contains no special regex character other than `.`, which also
matches itself). -/
def grepLine (pat line : String) : Bool :=
  decide (pat.toList <:+: line.toList)

/-- Whether some line of the file contains the success marker: the meaning
of `grep -q "✅ Overwrote global_trend_summary.csv" "$LOG_FILE"`. -/
def containsMarker (lines : List String) : Bool :=
  lines.any (grepLine successMarker)

/-- The run header appended to the monthly log at the start of a run. -/
def runHeaderLines (env : Env) : List String :=
  ["", sepLine, "🕒 Update Run — " ++ env.runTimestamp, sepLine]

/-- Content of the monthly log file right after the updater ran: the prior
content, the run header, then the updater's combined output.  This is the
file `grep` scans. -/
def seenLog (env : Env) : List String :=
  env.priorLog ++ runHeaderLines env ++ env.updaterOutput

/-- The glob `update_log_*.txt` used by the cleanup `find`. -/
def matchesLogGlob (s : String) : Bool :=
  decide ("update_log_".toList <+: s.toList) && decide (".txt".toList <:+ s.toList)

/-- The files `find logs/ -name "update_log_*.txt" -mtime +180 -delete`
deletes: name matches the glob and age is more than 180 whole days. -/
def oldLogFile (f : LogFile) : Bool :=
  matchesLogGlob f.name && decide (f.ageDays > 180)

/-- Files remaining in `logs/` after the best-effort cleanup
`find logs/ -name "update_log_*.txt" -mtime +180 -delete || true`.
A failing `find` is modelled as deleting nothing; in either case the
`|| true` makes the command's exit status irrelevant. -/
def cleanupFiles (env : Env) : List LogFile :=
  if env.findFails then env.logFiles
  else env.logFiles.filter (fun f => !oldLogFile f)

/-- One run of the orchestrator script, shared by all four variants and
specialised by `Config`.  Mirrors the bash control flow under
`set -euo pipefail`:
1. append the run header to the monthly log;
2. run the updater, appending its output; a non-zero exit aborts the script
   with that status (fail-fast) before any later command;
3. best-effort cleanup of old logs (`|| true`);
4. grep the whole monthly log for the success marker;
5. marker present: optional checking message, `git add` of the configured
   artifact paths, then (compare variants) stop if the staged diff is empty,
   else commit and push — guarded by `|| true` in the guarded variants,
   unguarded (hence fatal on failure) otherwise — then log the pushed line;
   marker absent: log the no-update message. -/
def runScript (cfg : Config) (env : Env) : RunResult :=
  let log1 := seenLog env
  if env.updaterExit = 0 then
    let files := cleanupFiles env
    if containsMarker log1 then
      let log2 := log1 ++ (if cfg.checkingMsg then [checkingLine] else [])
      if cfg.hasCompare && env.stagedDiffEmpty then
        { exitCode := 0, log := log2 ++ [noChangesLine], staged := cfg.artifacts,
          commitAttempted := false, commitCreated := false,
          pushAttempted := false, pushSucceeded := false, logFiles := files }
      else if cfg.guardCommitPush then
        { exitCode := 0,
          log := log2 ++ env.commitOutput ++ env.pushOutput ++ [pushedLine],
          staged := cfg.artifacts, commitAttempted := true,
          commitCreated := !env.commitFails,
          pushAttempted := true, pushSucceeded := !env.pushFails,
          logFiles := files }
      else if env.commitFails then
        { exitCode := 1, log := log2 ++ env.commitOutput, staged := cfg.artifacts,
          commitAttempted := true, commitCreated := false,
          pushAttempted := false, pushSucceeded := false, logFiles := files }
      else if env.pushFails then
        { exitCode := 1, log := log2 ++ env.commitOutput ++ env.pushOutput,
          staged := cfg.artifacts, commitAttempted := true, commitCreated := true,
          pushAttempted := true, pushSucceeded := false, logFiles := files }
      else
        { exitCode := 0,
          log := log2 ++ env.commitOutput ++ env.pushOutput ++ [pushedLine],
          staged := cfg.artifacts, commitAttempted := true, commitCreated := true,
          pushAttempted := true, pushSucceeded := true, logFiles := files }
    else
      { exitCode := 0, log := log1 ++ [cfg.noUpdateMsg], staged := [],
        commitAttempted := false, commitCreated := false,
        pushAttempted := false, pushSucceeded := false, logFiles := files }
  else
    { exitCode := env.updaterExit, log := log1, staged := [],
      commitAttempted := false, commitCreated := false,
      pushAttempted := false, pushSucceeded := false, logFiles := env.logFiles }

/-- The three artifact paths staged by `run_update.sh`. -/
def artifactPaths3 : List String :=
  ["data/streamlit/global_trend_summary.csv",
   "data/streamlit/trend_pct_change.csv",
   "data/streamlit/trend_top_peaks.csv"]

/-- The six artifact paths staged by the variant with the trailing
"Add more as needed" comment. -/
def artifactPaths6 : List String :=
  artifactPaths3 ++
  ["data/streamlit/country_interest_summary.csv",
   "data/streamlit/country_total_interest_by_keyword.csv",
   "data/streamlit/country_top5_appearance_counts.csv"]

/-- The nine artifact paths staged by the two fullest variants. -/
def artifactPaths9 : List String :=
  artifactPaths6 ++
  ["data/streamlit/related_queries_top10.csv",
   "data/streamlit/related_queries_rising10.csv",
   "data/streamlit/related_queries_shared.csv"]

/-- `src/run_update.sh`: three artifacts, no checking message, no compare
step, unguarded commit and push. -/
def runUpdateConfig : Config :=
  { artifacts := artifactPaths3, checkingMsg := false, hasCompare := false,
    guardCommitPush := false, noUpdateMsg := noNewWeeklyLine }

/-- `src/unnamed/part_000` (heavily commented cron variant): nine artifacts,
checking message, compare step, commit and push guarded by `|| true`. -/
def part000Config : Config :=
  { artifacts := artifactPaths9, checkingMsg := true, hasCompare := true,
    guardCommitPush := true, noUpdateMsg := noNewGlobalLine }

/-- `src/unnamed/part_001`: six artifacts, checking message, compare step,
unguarded commit and push. -/
def part001Config : Config :=
  { artifacts := artifactPaths6, checkingMsg := true, hasCompare := true,
    guardCommitPush := false, noUpdateMsg := noNewGlobalLine }

/-- `src/unnamed/part_002` (cron variant): nine artifacts, checking message,
compare step, commit and push guarded by `|| true`. -/
def part002Config : Config :=
  { artifacts := artifactPaths9, checkingMsg := true, hasCompare := true,
    guardCommitPush := true, noUpdateMsg := noNewGlobalLine }

/-!
Notebook model (`src/notebooks/05_streamlit_prep.ipynb`).

Tables are modelled at CSV level: a list of column names and rows of string
cells.  The notebook loads intermediate tables from `data/processed/`,
applies only reshapes (melt, column rename, column selection, reset_index)
and writes each derived table with `to_csv(..., index=False)` (pandas
default `header=True`).  Dates come from
`pd.date_range(start="2020-07-26", periods=n, freq="W-SUN")`, i.e. the
fixed literal start date plus 7-day steps — no wall-clock call occurs
anywhere in the notebook; `NotebookEnv.wallClock` models the ambient clock
a run could have observed, so independence from it can be stated. -/

/-- A CSV-level table: column names and rows of string cells. -/
structure Table where
  cols : List String
  rows : List (List String)
deriving DecidableEq, Repr

/-- The raw interest-over-time table after the date index is dropped
(`index_col=0` &ensp; `reset_index(drop=True)`): keyword column names and one
row of interest scores per week. -/
structure RawTable where
  keywords : List String
  values : List (List String)
deriving DecidableEq, Repr

/-- Civil date (proleptic Gregorian) from days since 1970-01-01. -/
def civilFromDays (z : Nat) : Nat × Nat × Nat :=
  let z' := z + 719468
  let era := z' / 146097
  let doe := z' % 146097
  let yoe := (doe - doe / 1460 + doe / 36524 - doe / 146096) / 365
  let y := yoe + era * 400
  let doy := doe - (365 * yoe + yoe / 4 - yoe / 100)
  let mp := (5 * doy + 2) / 153
  let d := doy - (153 * mp + 2) / 5 + 1
  let m := if mp < 10 then mp + 3 else mp - 9
  (if m ≤ 2 then y + 1 else y, m, d)

/-- Days since 1970-01-01 of a civil date. -/
def daysFromCivil (y m d : Nat) : Nat :=
  let y' := if m ≤ 2 then y - 1 else y
  let era := y' / 400
  let yoe := y' % 400
  let doy := (153 * (if m > 2 then m - 3 else m + 9) + 2) / 5 + d - 1
  let doe := yoe * 365 + yoe / 4 - yoe / 100 + doy
  era * 146097 + doe - 719468

/-- Two-digit zero padding. -/
def pad2 (n : Nat) : String :=
  if n < 10 then "0" ++ toString n else toString n

/-- Render an epoch day as `YYYY-MM-DD`, the form pandas writes for a
midnight timestamp. -/
def showDate (z : Nat) : String :=
  let c := civilFromDays z
  toString c.1 ++ "-" ++ pad2 c.2.1 ++ "-" ++ pad2 c.2.2

/-- Epoch day of the literal start date `"2020-07-26"` (a Sunday). -/
def epochDay20200726 : Nat := daysFromCivil 2020 7 26

/-- The dates of `pd.date_range(start, periods, freq="W-SUN")` when `start`
is a Sunday: `start + 7*i` days for `i < periods`. -/
def dateRangeWeeklyFrom (startDay n : Nat) : List String :=
  (List.range n).map fun i => showDate (startDay + 7 * i)

/-- Input of a melt: the id column values, the value-column names, and one
row of values per id entry. -/
structure LongInput where
  dates : List String
  keywords : List String
  values : List (List String)
deriving DecidableEq, Repr

/-- `df.melt(id_vars="date", var_name="keyword", value_name="search_interest")`:
stacks, for each value column in order, all rows `[date, keyword, value]`. -/
def meltLong (t : LongInput) : Table :=
  { cols := ["date", "keyword", "search_interest"],
    rows := (t.keywords.enum.map fun kj =>
      (t.dates.zip (t.values.map fun r => r.getD kj.1 "")).map
        fun p => [p.1, kj.2, p.2]).flatten }

/-- The first `global_trend_summary` export: date column generated from the
fixed literal start, then melt. -/
def cell4GlobalTable (raw : RawTable) : Table :=
  meltLong ⟨dateRangeWeeklyFrom epochDay20200726 raw.values.length,
            raw.keywords, raw.values⟩

/-- The second `global_trend_summary` export
(`df_trend.reset_index().melt(id_vars="date", ...)`): `reset_index()`
prepends an `index` column, which melt then treats as one more value
column, so the long table additionally contains `keyword="index"` rows. -/
def cell5GlobalTable (raw : RawTable) : Table :=
  meltLong ⟨dateRangeWeeklyFrom epochDay20200726 raw.values.length,
            "index" :: raw.keywords,
            raw.values.enum.map fun p => toString p.1 :: p.2⟩

/-- `df_pct_change.columns = ["keyword", "percent_change"]`: rename only. -/
def pctChangeTable (t : Table) : Table :=
  { cols := ["keyword", "percent_change"], rows := t.rows }

/-- `df[[c1, ..., ck]]`: select the named columns (assumed present). -/
def selectCols (t : Table) (cs : List String) : Table :=
  { cols := cs,
    rows := t.rows.map fun r => cs.map fun c => r.getD (t.cols.indexOf c) "" }

/-- `df.reset_index()`: prepend the integer index as an `index` column. -/
def resetIndexTable (t : Table) : Table :=
  { cols := "index" :: t.cols,
    rows := t.rows.enum.map fun p => toString p.1 :: p.2 }

/-- The fixed `country_top5` export: `reset_index()` then rename the three
columns to `keyword, country, total_interest`. -/
def top5FixedTable (t : Table) : Table :=
  { cols := ["keyword", "country", "total_interest"],
    rows := (resetIndexTable t).rows }

/-- Everything one notebook run reads: the loaded tables, plus the ambient
wall clock (never consulted by any notebook cell). -/
structure NotebookEnv where
  raw : RawTable
  pctChange : Table
  topPeaks : Table
  countryLong : Table
  countryTotal : Table
  countryTop5 : Table
  relatedTop10 : Table
  relatedRising10 : Table
  relatedShared : Table
  wallClock : Nat
deriving DecidableEq, Repr

/-- One `DataFrame.to_csv(path, ...)` call: target path, table, and the
`header` / `index` arguments (pandas defaults `header=True`; every call in
the notebook passes `index=False`). -/
structure ExportCall where
  path : String
  table : Table
  header : Bool
  index : Bool
deriving DecidableEq, Repr

/-- Double every quote character (CSV escaping). -/
def escQuote : List Char → List Char
  | [] => []
  | c :: cs => if c == '"' then '"' :: '"' :: escQuote cs else c :: escQuote cs

/-- Minimal CSV quoting: quote a field iff it contains a comma, a quote or
a newline. -/
def csvField (s : String) : String :=
  if s.toList.any (fun c => c == ',' || c == '"' || c == '\n')
  then "\"" ++ String.mk (escQuote s.toList) ++ "\""
  else s

/-- One CSV row. -/
def csvRow (cells : List String) : String :=
  String.intercalate "," (cells.map csvField)

/-- Concatenate lines, each terminated by a newline. -/
def concatLines : List String → String
  | [] => ""
  | l :: ls => l ++ "\n" ++ concatLines ls

/-- Prepend the row index as pandas does when `index=True`: an unnamed
header cell and the integer index in front of each row. -/
def withIndexCol (t : Table) : Table :=
  { cols := "" :: t.cols,
    rows := t.rows.enum.map fun p => toString p.1 :: p.2 }

/-- The bytes `to_csv` produces for a call. -/
def writeCsv (c : ExportCall) : String :=
  let t := if c.index then withIndexCol c.table else c.table
  let body := t.rows.map csvRow
  concatLines (if c.header then csvRow t.cols :: body else body)

/-- All `to_csv` calls of the notebook, in cell order.  The
`global_trend_summary` path is written twice (two cells export it) and the
`country_top5` path is rewritten by the fixed cell at the end. -/
def exportCalls (e : NotebookEnv) : List ExportCall :=
  [⟨"../data/streamlit/global_trend_summary.csv", cell4GlobalTable e.raw, true, false⟩,
   ⟨"../data/streamlit/global_trend_summary.csv", cell5GlobalTable e.raw, true, false⟩,
   ⟨"../data/streamlit/trend_pct_change.csv", pctChangeTable e.pctChange, true, false⟩,
   ⟨"../data/streamlit/trend_top_peaks.csv",
     selectCols e.topPeaks ["date", "keyword", "search_interest"], true, false⟩,
   ⟨"../data/streamlit/country_interest_summary.csv", e.countryLong, true, false⟩,
   ⟨"../data/streamlit/country_total_interest_by_keyword.csv", e.countryTotal, true, false⟩,
   ⟨"../data/streamlit/country_top5_appearance_counts.csv", e.countryTop5, true, false⟩,
   ⟨"../data/streamlit/related_queries_top10.csv", e.relatedTop10, true, false⟩,
   ⟨"../data/streamlit/related_queries_rising10.csv", e.relatedRising10, true, false⟩,
   ⟨"../data/streamlit/related_queries_shared.csv", e.relatedShared, true, false⟩,
   ⟨"../data/streamlit/country_top5_appearance_counts.csv",
     top5FixedTable e.countryTop5, true, false⟩]

/-- One notebook run: the written files as path/bytes pairs, in order. -/
def notebookRun (e : NotebookEnv) : List (String × String) :=
  (exportCalls e).map fun c => (c.path, writeCsv c)

/-!
Concrete run environments used by counterexamples and witnesses. -/

/-- A run whose updater overwrote the global summary; artifacts differ from
the last commit; commit and push succeed. -/
def envHappy : Env :=
  { runTimestamp := "2025-08-03 06:00:00",
    priorLog := [],
    updaterExit := 0,
    updaterOutput :=
      ["📥 Fetching weekly interest data...",
       "✅ Overwrote global_trend_summary.csv"],
    findFails := false,
    logFiles := [⟨"update_log_2025_01.txt", 214⟩, ⟨"update_log_2025_07.txt", 12⟩],
    stagedDiffEmpty := false,
    commitFails := false,
    commitOutput := ["[main 0a1b2c3] 🔄 Auto update: datasets on 2025-08-03"],
    pushFails := false,
    pushOutput := ["To github.com:saayedalam/meditation-trend-pulse.git"] }

/-- A second run in the same month: the monthly log already holds the
marker from an earlier successful run, while the current updater output
reports no new data (no marker). -/
def envStaleMarker : Env :=
  { runTimestamp := "2025-08-10 06:00:00",
    priorLog :=
      ["", sepLine, "🕒 Update Run — 2025-08-03 06:00:00", sepLine,
       "📥 Fetching weekly interest data...",
       "✅ Overwrote global_trend_summary.csv",
       "🚀 Changes pushed to GitHub."],
    updaterExit := 0,
    updaterOutput := ["📭 No new weekly data found — nothing overwritten."],
    findFails := false,
    logFiles := [],
    stagedDiffEmpty := true,
    commitFails := false,
    commitOutput := [],
    pushFails := false,
    pushOutput := [] }

/-- A run with the marker present but artifacts byte-identical to the last
commit: the staged diff is empty, so a `git commit` would fail with
"nothing to commit". -/
def envEmptyDiff : Env :=
  { runTimestamp := "2025-08-03 06:00:00",
    priorLog := [],
    updaterExit := 0,
    updaterOutput := ["✅ Overwrote global_trend_summary.csv"],
    findFails := false,
    logFiles := [],
    stagedDiffEmpty := true,
    commitFails := true,
    commitOutput := ["On branch main", "nothing to commit, working tree clean"],
    pushFails := false,
    pushOutput := [] }

/-- A run that reaches commit+push where the push fails (e.g. transient
network error). -/
def envPushFail : Env :=
  { envHappy with
    pushFails := true,
    pushOutput := ["fatal: unable to access remote: Could not resolve host"] }

/-- A run that reaches commit+push where both commit and push fail. -/
def envBothFail : Env :=
  { envHappy with
    commitFails := true,
    commitOutput := ["fatal: unable to auto-detect email address"],
    pushFails := true,
    pushOutput := ["fatal: could not read Username"] }

/-- A run whose updater raises and exits non-zero. -/
def envUpdaterFail : Env :=
  { runTimestamp := "2025-08-03 06:00:00",
    priorLog := [],
    updaterExit := 1,
    updaterOutput :=
      ["Traceback (most recent call last):",
       "pytrends.exceptions.ResponseError: The request failed"],
    findFails := false,
    logFiles := [⟨"update_log_2025_01.txt", 214⟩],
    stagedDiffEmpty := true,
    commitFails := false,
    commitOutput := [],
    pushFails := false,
    pushOutput := [] }

/-- A concrete notebook input: one keyword, two weeks of data, small
country and related-query tables. -/
def nbEnv0 : NotebookEnv :=
  { raw := ⟨["meditation"], [["41"], ["56"]]⟩,
    pctChange := ⟨["keyword", "pct_change_5yr"], [["meditation", "12.5"]]⟩,
    topPeaks := ⟨["date", "keyword", "search_interest"],
      [["2021-01-03", "meditation", "100"]]⟩,
    countryLong := ⟨["country", "keyword", "interest"], [["US", "meditation", "88"]]⟩,
    countryTotal := ⟨["keyword", "total_interest"], [["meditation", "950"]]⟩,
    countryTop5 := ⟨["num_keywords_in_top5", "count"], [["1", "7"]]⟩,
    relatedTop10 := ⟨["keyword", "query", "value", "rank"],
      [["meditation", "sleep meditation", "100", "1"]]⟩,
    relatedRising10 := ⟨["keyword", "query", "value", "rank"],
      [["meditation", "morning meditation", "250", "1"]]⟩,
    relatedShared := ⟨["query", "num_keywords"], [["guided meditation", "3"]]⟩,
    wallClock := 1754200000 }

/-- The first export call of the notebook at the concrete input. -/
def nbCall0 : ExportCall :=
  { path := "../data/streamlit/global_trend_summary.csv",
    table := cell4GlobalTable nbEnv0.raw, header := true, index := false }

/-!
Theorems. -/

/-- Sanity anchor for the date model. -/
theorem showDate_epochDay : showDate epochDay20200726 = "2020-07-26" := by decide

/-!
Branch characterizations of `runScript`, one per control-flow path. -/

/-- Updater failed: `set -e` aborts with its status before any later step. -/
theorem runScript_abort (cfg : Config) (env : Env) (h : ¬env.updaterExit = 0) :
    runScript cfg env =
      { exitCode := env.updaterExit, log := seenLog env, staged := [],
        commitAttempted := false, commitCreated := false,
        pushAttempted := false, pushSucceeded := false,
        logFiles := env.logFiles } := by
  unfold runScript
  rw [if_neg h]

/-- No marker anywhere in the monthly log: only the no-update message. -/
theorem runScript_noMarker (cfg : Config) (env : Env)
    (h0 : env.updaterExit = 0) (hm : containsMarker (seenLog env) = false) :
    runScript cfg env =
      { exitCode := 0, log := seenLog env ++ [cfg.noUpdateMsg], staged := [],
        commitAttempted := false, commitCreated := false,
        pushAttempted := false, pushSucceeded := false,
        logFiles := cleanupFiles env } := by
  unfold runScript
  rw [if_pos h0, hm]
  rfl

/-- Marker present, compare step present, staged diff empty: stop after
logging the no-changes line. -/
theorem runScript_compareSkip (cfg : Config) (env : Env)
    (h0 : env.updaterExit = 0) (hm : containsMarker (seenLog env) = true)
    (hc : (cfg.hasCompare && env.stagedDiffEmpty) = true) :
    runScript cfg env =
      { exitCode := 0,
        log := (seenLog env ++ (if cfg.checkingMsg then [checkingLine] else []))
          ++ [noChangesLine],
        staged := cfg.artifacts,
        commitAttempted := false, commitCreated := false,
        pushAttempted := false, pushSucceeded := false,
        logFiles := cleanupFiles env } := by
  unfold runScript
  rw [if_pos h0, hm, hc]
  rfl

/-- Marker present, commit+push reached, variant guarded by `|| true`:
the run always ends with the pushed line and exit status zero. -/
theorem runScript_guarded (cfg : Config) (env : Env)
    (h0 : env.updaterExit = 0) (hm : containsMarker (seenLog env) = true)
    (hc : (cfg.hasCompare && env.stagedDiffEmpty) = false)
    (hg : cfg.guardCommitPush = true) :
    runScript cfg env =
      { exitCode := 0,
        log := (seenLog env ++ (if cfg.checkingMsg then [checkingLine] else []))
          ++ env.commitOutput ++ env.pushOutput ++ [pushedLine],
        staged := cfg.artifacts,
        commitAttempted := true, commitCreated := !env.commitFails,
        pushAttempted := true, pushSucceeded := !env.pushFails,
        logFiles := cleanupFiles env } := by
  unfold runScript
  rw [if_pos h0, hm, hc, hg]
  rfl

/-- Marker present, commit+push reached, unguarded variant, commit fails:
`set -e` aborts with a non-zero status before the push. -/
theorem runScript_unguardedCommitFail (cfg : Config) (env : Env)
    (h0 : env.updaterExit = 0) (hm : containsMarker (seenLog env) = true)
    (hc : (cfg.hasCompare && env.stagedDiffEmpty) = false)
    (hg : cfg.guardCommitPush = false) (hcf : env.commitFails = true) :
    runScript cfg env =
      { exitCode := 1,
        log := (seenLog env ++ (if cfg.checkingMsg then [checkingLine] else []))
          ++ env.commitOutput,
        staged := cfg.artifacts,
        commitAttempted := true, commitCreated := false,
        pushAttempted := false, pushSucceeded := false,
        logFiles := cleanupFiles env } := by
  unfold runScript
  rw [if_pos h0, hm, hc, hg, hcf]
  rfl

/-- Marker present, commit+push reached, unguarded variant, commit succeeds
but push fails: `set -e` aborts with a non-zero status before the pushed
line is logged. -/
theorem runScript_unguardedPushFail (cfg : Config) (env : Env)
    (h0 : env.updaterExit = 0) (hm : containsMarker (seenLog env) = true)
    (hc : (cfg.hasCompare && env.stagedDiffEmpty) = false)
    (hg : cfg.guardCommitPush = false) (hcf : env.commitFails = false)
    (hpf : env.pushFails = true) :
    runScript cfg env =
      { exitCode := 1,
        log := (seenLog env ++ (if cfg.checkingMsg then [checkingLine] else []))
          ++ env.commitOutput ++ env.pushOutput,
        staged := cfg.artifacts,
        commitAttempted := true, commitCreated := true,
        pushAttempted := true, pushSucceeded := false,
        logFiles := cleanupFiles env } := by
  unfold runScript
  rw [if_pos h0, hm, hc, hg, hcf, hpf]
  rfl

/-- Marker present, commit+push reached, unguarded variant, both succeed. -/
theorem runScript_unguardedOk (cfg : Config) (env : Env)
    (h0 : env.updaterExit = 0) (hm : containsMarker (seenLog env) = true)
    (hc : (cfg.hasCompare && env.stagedDiffEmpty) = false)
    (hg : cfg.guardCommitPush = false) (hcf : env.commitFails = false)
    (hpf : env.pushFails = false) :
    runScript cfg env =
      { exitCode := 0,
        log := (seenLog env ++ (if cfg.checkingMsg then [checkingLine] else []))
          ++ env.commitOutput ++ env.pushOutput ++ [pushedLine],
        staged := cfg.artifacts,
        commitAttempted := true, commitCreated := true,
        pushAttempted := true, pushSucceeded := true,
        logFiles := cleanupFiles env } := by
  unfold runScript
  rw [if_pos h0, hm, hc, hg, hcf, hpf]
  rfl

/-- Helper: whenever the updater succeeded and the marker was found in the
monthly log, the git index receives exactly the configured artifact list. -/
theorem staged_of_marker (cfg : Config) (env : Env)
    (h0 : env.updaterExit = 0) (hm : containsMarker (seenLog env) = true) :
    (runScript cfg env).staged = cfg.artifacts := by
  cases hc : (cfg.hasCompare && env.stagedDiffEmpty) with
  | true => rw [runScript_compareSkip cfg env h0 hm hc]
  | false =>
    cases hg : cfg.guardCommitPush with
    | true => rw [runScript_guarded cfg env h0 hm hc hg]
    | false =>
      cases hcf : env.commitFails with
      | true => rw [runScript_unguardedCommitFail cfg env h0 hm hc hg hcf]
      | false =>
        cases hpf : env.pushFails with
        | true => rw [runScript_unguardedPushFail cfg env h0 hm hc hg hcf hpf]
        | false => rw [runScript_unguardedOk cfg env h0 hm hc hg hcf hpf]

/-- Helper: whenever the updater succeeded, the surviving `logs/` files are
those the best-effort cleanup kept. -/
theorem logFiles_of_ok (cfg : Config) (env : Env)
    (h0 : env.updaterExit = 0) :
    (runScript cfg env).logFiles = cleanupFiles env := by
  cases hm : containsMarker (seenLog env) with
  | false => rw [runScript_noMarker cfg env h0 hm]
  | true =>
    cases hc : (cfg.hasCompare && env.stagedDiffEmpty) with
    | true => rw [runScript_compareSkip cfg env h0 hm hc]
    | false =>
      cases hg : cfg.guardCommitPush with
      | true => rw [runScript_guarded cfg env h0 hm hc hg]
      | false =>
        cases hcf : env.commitFails with
        | true => rw [runScript_unguardedCommitFail cfg env h0 hm hc hg hcf]
        | false =>
          cases hpf : env.pushFails with
          | true => rw [runScript_unguardedPushFail cfg env h0 hm hc hg hcf hpf]
          | false => rw [runScript_unguardedOk cfg env h0 hm hc hg hcf hpf]

/-- Helper: the exit status of a run, independent of the cleanup result. -/
theorem exitCode_runScript (cfg : Config) (env : Env) :
    (runScript cfg env).exitCode =
      (if env.updaterExit = 0 then
        (if containsMarker (seenLog env) then
          (if cfg.hasCompare && env.stagedDiffEmpty then 0
           else if cfg.guardCommitPush then 0
           else if env.commitFails then 1
           else if env.pushFails then 1
           else 0)
         else 0)
       else env.updaterExit) := by
  by_cases h0 : env.updaterExit = 0
  · rw [if_pos h0]
    cases hm : containsMarker (seenLog env) with
    | false => rw [runScript_noMarker cfg env h0 hm]; exact rfl
    | true =>
      cases hc : (cfg.hasCompare && env.stagedDiffEmpty) with
      | true => rw [runScript_compareSkip cfg env h0 hm hc]; exact rfl
      | false =>
        cases hg : cfg.guardCommitPush with
        | true => rw [runScript_guarded cfg env h0 hm hc hg]; exact rfl
        | false =>
          cases hcf : env.commitFails with
          | true => rw [runScript_unguardedCommitFail cfg env h0 hm hc hg hcf]; exact rfl
          | false =>
            cases hpf : env.pushFails with
            | true => rw [runScript_unguardedPushFail cfg env h0 hm hc hg hcf hpf]; exact rfl
            | false => rw [runScript_unguardedOk cfg env h0 hm hc hg hcf hpf]; exact rfl
  · rw [runScript_abort cfg env h0, if_neg h0]

/-!
Claim theorems. -/

/-- C1: the claim says a run whose updater output lacks the success marker
performs no git staging, commit or push and only appends a no-update
message, because Decide examines only the just-produced output.  The code
instead greps the whole monthly log file: on a second run in the same
month, the marker left by an earlier run still matches, so the orchestrator
stages the artifact list and does not log the no-update message, although
the current updater output contains no marker.  This contradicts the
scripts' own comments ("Check if global dataset was updated in this run";
commit "ONLY if Global Dataset Updated"). -/
theorem c1_stale_marker_triggers_staging :
    containsMarker envStaleMarker.updaterOutput = false ∧
    (runScript part001Config envStaleMarker).staged = artifactPaths6 ∧
    noNewGlobalLine ∉ (runScript part001Config envStaleMarker).log := by
  decide

/-- C2 counterexample: in `run_update.sh` there is no compare step.  With
the marker present and a staged diff that is empty, the script runs
`git commit` anyway; the commit fails ("nothing to commit") and, unguarded
under `set -e`, the run exits non-zero and never logs the no-changes
message — contradicting "no commit is created and no push is attempted;
the orchestrator logs a 'no dataset changes detected' message and exits
successfully" for this variant. -/
theorem c2_counterexample :
    (runScript runUpdateConfig envEmptyDiff).commitAttempted = true ∧
    (runScript runUpdateConfig envEmptyDiff).exitCode = 1 ∧
    noChangesLine ∉ (runScript runUpdateConfig envEmptyDiff).log := by
  decide

/-- C2 (amended): in the three variants that have the
`git diff --cached --quiet` compare step, a run with the marker present and
an empty staged diff creates no commit, attempts no push, logs the
no-changes message last, and exits zero — staging having occurred. -/
theorem c2_compare_variants_skip_commit (env : Env)
    (h0 : env.updaterExit = 0) (hm : containsMarker (seenLog env) = true)
    (hd : env.stagedDiffEmpty = true) :
    ∀ cfg ∈ [part000Config, part001Config, part002Config],
      (runScript cfg env).exitCode = 0 ∧
      (runScript cfg env).staged = cfg.artifacts ∧
      (runScript cfg env).commitAttempted = false ∧
      (runScript cfg env).pushAttempted = false ∧
      (runScript cfg env).log.getLast? = some noChangesLine := by
  intro cfg hcfg
  have hcfg' : cfg = part000Config ∨ cfg = part001Config ∨ cfg = part002Config := by
    simpa using hcfg
  have hc : (cfg.hasCompare && env.stagedDiffEmpty) = true := by
    rcases hcfg' with rfl | rfl | rfl <;> (rw [hd]; rfl)
  rw [runScript_compareSkip cfg env h0 hm hc]
  exact ⟨rfl, rfl, rfl, rfl, List.getLast?_concat _⟩

/-- C2 witness: the amended statement at a concrete run. -/
theorem c2_witness :
    (runScript part000Config envEmptyDiff).exitCode = 0 ∧
    (runScript part000Config envEmptyDiff).staged = part000Config.artifacts ∧
    (runScript part000Config envEmptyDiff).commitAttempted = false ∧
    (runScript part000Config envEmptyDiff).pushAttempted = false ∧
    (runScript part000Config envEmptyDiff).log.getLast? = some noChangesLine :=
  c2_compare_variants_skip_commit envEmptyDiff rfl (by decide) rfl
    part000Config (by simp)

/-- C3 counterexample: in `run_update.sh` the commit and push are not
guarded by `|| true`; under `set -e` a failing `git push` makes the whole
run exit non-zero, contradicting "a failure of git commit or git push does
not cause the orchestrator process to exit non-zero". -/
theorem c3_counterexample :
    (runScript runUpdateConfig envPushFail).pushAttempted = true ∧
    (runScript runUpdateConfig envPushFail).exitCode = 1 := by
  decide

/-- C3 (amended): only in the two variants that guard `git commit` and
`git push` with `|| true` are commit/push failures swallowed: such a run
always exits zero and still reaches the end of the script.  In the
unguarded variants (`run_update.sh`, part_001) a commit or push failure
aborts the run with a non-zero exit. -/
theorem c3_guarded_variants_swallow_failures (env : Env)
    (h0 : env.updaterExit = 0) (hm : containsMarker (seenLog env) = true)
    (hd : env.stagedDiffEmpty = false) :
    ∀ cfg ∈ [part000Config, part002Config],
      (runScript cfg env).exitCode = 0 ∧
      (runScript cfg env).pushAttempted = true := by
  intro cfg hcfg
  have hcfg' : cfg = part000Config ∨ cfg = part002Config := by
    simpa using hcfg
  have hc : (cfg.hasCompare && env.stagedDiffEmpty) = false := by
    rcases hcfg' with rfl | rfl <;> (rw [hd]; rfl)
  have hg : cfg.guardCommitPush = true := by
    rcases hcfg' with rfl | rfl <;> rfl
  rw [runScript_guarded cfg env h0 hm hc hg]
  exact ⟨rfl, rfl⟩

/-- C3 witness: the amended statement at a concrete run where both commit
and push fail. -/
theorem c3_witness :
    (runScript part000Config envBothFail).exitCode = 0 ∧
    (runScript part000Config envBothFail).pushAttempted = true :=
  c3_guarded_variants_swallow_failures envBothFail rfl (by decide) rfl
    part000Config (by simp)

/-- C4: a non-zero updater exit aborts the run immediately under
`set -euo pipefail`: the exit status is the updater's (non-zero), nothing
is staged, no commit or push is attempted, the cleanup never runs (the
`logs/` directory is untouched), and the log holds only the header and the
updater's output. -/
theorem c4_updater_failure_aborts (cfg : Config) (env : Env)
    (h : env.updaterExit ≠ 0) :
    (runScript cfg env).exitCode = env.updaterExit ∧
    (runScript cfg env).exitCode ≠ 0 ∧
    (runScript cfg env).staged = [] ∧
    (runScript cfg env).commitAttempted = false ∧
    (runScript cfg env).pushAttempted = false ∧
    (runScript cfg env).logFiles = env.logFiles ∧
    (runScript cfg env).log = seenLog env := by
  rw [runScript_abort cfg env h]
  exact ⟨rfl, h, rfl, rfl, rfl, rfl, rfl⟩

/-- C4 witness: a concrete run whose updater raises. -/
theorem c4_witness :
    (runScript runUpdateConfig envUpdaterFail).exitCode = envUpdaterFail.updaterExit ∧
    (runScript runUpdateConfig envUpdaterFail).exitCode ≠ 0 ∧
    (runScript runUpdateConfig envUpdaterFail).staged = [] ∧
    (runScript runUpdateConfig envUpdaterFail).commitAttempted = false ∧
    (runScript runUpdateConfig envUpdaterFail).pushAttempted = false ∧
    (runScript runUpdateConfig envUpdaterFail).logFiles = envUpdaterFail.logFiles ∧
    (runScript runUpdateConfig envUpdaterFail).log = seenLog envUpdaterFail :=
  c4_updater_failure_aborts runUpdateConfig envUpdaterFail (by decide)

/-- C5: whenever the success marker is found, each variant stages exactly
its fixed configured artifact list — every path in the list and none
outside it (`git add` receives precisely these paths): three paths in
`run_update.sh`, six in part_001, nine in part_000 and part_002. -/
theorem c5_stages_exact_artifact_list (env : Env)
    (h0 : env.updaterExit = 0) (hm : containsMarker (seenLog env) = true) :
    (runScript runUpdateConfig env).staged = artifactPaths3 ∧
    (runScript part000Config env).staged = artifactPaths9 ∧
    (runScript part001Config env).staged = artifactPaths6 ∧
    (runScript part002Config env).staged = artifactPaths9 :=
  ⟨staged_of_marker runUpdateConfig env h0 hm,
   staged_of_marker part000Config env h0 hm,
   staged_of_marker part001Config env h0 hm,
   staged_of_marker part002Config env h0 hm⟩

/-- C5 witness: the staging lists at a concrete successful run. -/
theorem c5_witness :
    (runScript runUpdateConfig envHappy).staged = artifactPaths3 ∧
    (runScript part000Config envHappy).staged = artifactPaths9 ∧
    (runScript part001Config envHappy).staged = artifactPaths6 ∧
    (runScript part002Config envHappy).staged = artifactPaths9 :=
  c5_stages_exact_artifact_list envHappy rfl (by decide)

/-- C6: the notebook's derived-table computation is a pure function of the
loaded input tables: it never consults the ambient clock (no wall-clock
call occurs in any cell; the date column comes from the fixed literal start
date), so two runs over the same input — whatever the clock reads — produce
byte-identical CSV bytes for every export. -/
theorem c6_exports_deterministic (e : NotebookEnv) (t t' : Nat) :
    notebookRun { e with wallClock := t } = notebookRun { e with wallClock := t' } :=
  rfl

/-- C7: every write the orchestrator makes to the monthly log file is an
append (`>>`): for every variant and every run, the log content before the
run is a prefix of the log content after the run. -/
theorem c7_log_append_only (cfg : Config) (env : Env) :
    env.priorLog <+: (runScript cfg env).log := by
  have base : env.priorLog <+: seenLog env := by
    unfold seenLog
    rw [List.append_assoc]
    exact List.prefix_append _ _
  have step : ∀ {a b : List String}, a <+: b → ∀ c : List String, a <+: b ++ c :=
    fun h c => h.trans (List.prefix_append _ c)
  by_cases h0 : env.updaterExit = 0
  · cases hm : containsMarker (seenLog env) with
    | false =>
      rw [runScript_noMarker cfg env h0 hm]
      exact step base _
    | true =>
      cases hc : (cfg.hasCompare && env.stagedDiffEmpty) with
      | true =>
        rw [runScript_compareSkip cfg env h0 hm hc]
        exact step (step base _) _
      | false =>
        cases hg : cfg.guardCommitPush with
        | true =>
          rw [runScript_guarded cfg env h0 hm hc hg]
          exact step (step (step (step base _) _) _) _
        | false =>
          cases hcf : env.commitFails with
          | true =>
            rw [runScript_unguardedCommitFail cfg env h0 hm hc hg hcf]
            exact step (step base _) _
          | false =>
            cases hpf : env.pushFails with
            | true =>
              rw [runScript_unguardedPushFail cfg env h0 hm hc hg hcf hpf]
              exact step (step (step base _) _) _
            | false =>
              rw [runScript_unguardedOk cfg env h0 hm hc hg hcf hpf]
              exact step (step (step (step base _) _) _) _
  · rw [runScript_abort cfg env h0]
    exact base

/-- C8: on every run that reaches the cleanup step (the updater exited
zero) with a succeeding `find`, exactly the `logs/` files matching
`update_log_*.txt` whose age exceeds 180 days are deleted and all others
survive; and the run's exit status never depends on whether the deletion
failed (the command carries `|| true`). -/
theorem c8_cleanup_retention (cfg : Config) (env : Env)
    (h0 : env.updaterExit = 0) (hf : env.findFails = false) :
    (runScript cfg env).logFiles = env.logFiles.filter (fun f => !oldLogFile f) ∧
    ∀ b, (runScript cfg { env with findFails := b }).exitCode =
      (runScript cfg env).exitCode := by
  constructor
  · rw [logFiles_of_ok cfg env h0]
    simp [cleanupFiles, hf]
  · intro b
    rw [exitCode_runScript, exitCode_runScript]
    rfl

/-- C8 witness: the retention behavior at a concrete run with one
out-of-window log file, one fresh one, and a succeeding `find`. -/
theorem c8_witness :
    (runScript runUpdateConfig envHappy).logFiles =
      envHappy.logFiles.filter (fun f => !oldLogFile f) ∧
    ∀ b, (runScript runUpdateConfig { envHappy with findFails := b }).exitCode =
      (runScript runUpdateConfig envHappy).exitCode :=
  c8_cleanup_retention runUpdateConfig envHappy rfl rfl

/-- C10: in the `|| true` variants (part_000, part_002), whenever the run
reaches commit+push (marker present, staged diff non-empty), the line
"🚀 Changes pushed to GitHub." is the last line appended — with no
hypothesis on whether `git commit` or `git push` succeeded — so the log can
report "pushed" for a run whose push actually failed
(`pushSucceeded = !pushFails` while the line is logged regardless). -/
theorem c10_pushed_line_despite_failures (env : Env)
    (h0 : env.updaterExit = 0) (hm : containsMarker (seenLog env) = true)
    (hd : env.stagedDiffEmpty = false) :
    ((runScript part000Config env).log.getLast? = some pushedLine ∧
     (runScript part000Config env).pushSucceeded = !env.pushFails) ∧
    ((runScript part002Config env).log.getLast? = some pushedLine ∧
     (runScript part002Config env).pushSucceeded = !env.pushFails) := by
  constructor
  · rw [runScript_guarded part000Config env h0 hm (by rw [hd]; rfl) rfl]
    exact ⟨List.getLast?_concat _, rfl⟩
  · rw [runScript_guarded part002Config env h0 hm (by rw [hd]; rfl) rfl]
    exact ⟨List.getLast?_concat _, rfl⟩

/-- C10 witness: a concrete run where both commit and push fail and the
pushed line is still the last log line. -/
theorem c10_witness :
    ((runScript part000Config envBothFail).log.getLast? = some pushedLine ∧
     (runScript part000Config envBothFail).pushSucceeded = !envBothFail.pushFails) ∧
    ((runScript part002Config envBothFail).log.getLast? = some pushedLine ∧
     (runScript part002Config envBothFail).pushSucceeded = !envBothFail.pushFails) :=
  c10_pushed_line_despite_failures envBothFail rfl (by decide) rfl

/-- C9: every CSV artifact the notebook publishes is written to its fixed
output path with a header row and without an index column: every `to_csv`
call carries `header = true` (the pandas default) and `index = false`, and
the produced bytes are the column-name row followed by the data rows, with
no index column prepended. -/
theorem c9_csv_header_no_index (e : NotebookEnv) (c : ExportCall)
    (hc : c ∈ exportCalls e) :
    c.header = true ∧ c.index = false ∧
    writeCsv c = csvRow c.table.cols ++ "\n" ++
      concatLines (c.table.rows.map csvRow) := by
  simp only [exportCalls, List.mem_cons, List.not_mem_nil, or_false] at hc
  rcases hc with rfl | rfl | rfl | rfl | rfl | rfl | rfl | rfl | rfl | rfl | rfl <;>
    exact ⟨rfl, rfl, rfl⟩

/-- C9 witness: the header/no-index property at the concrete first export. -/
theorem c9_witness :
    nbCall0.header = true ∧ nbCall0.index = false ∧
    writeCsv nbCall0 = csvRow nbCall0.table.cols ++ "\n" ++
      concatLines (nbCall0.table.rows.map csvRow) :=
  c9_csv_header_no_index nbEnv0 nbCall0 (List.mem_cons_self _ _)

end TrendPulse
